import Mathlib

/-! Verification of youtube_sub_count_overlay: `server.js`

A shallow embedding of the server's process-wide variables, its goal
recalculation, the poll (`fetchSubscriberCount`) and the socket handlers,
followed by the properties proved about them.

Modelling conventions.

* The counts and goals are JavaScript numbers, that is IEEE 754 doubles. The
  sum, quotient, ceiling and product of line 232 are modelled with the
  rounding of doubles (`roundToDouble`), and the variables range over `NaN`,
  the infinities and the integers. The two zeros are identified.
* `parseInt` is a library call: its result is an input of the model and
  ranges over every number. The client counter only moves by one and is an
  integer.
* Every handler returns the new variables together with the list of
  externally visible effects it performed, in program order. An emission is
  recorded by the arguments of the `emit` call.
* `console.log` / `console.error` lines and HTTP responses are not effects of
  the model.
* An `async` function is split at its `await`: the part that runs when the
  function is called, and the part that runs when the awaited promise settles.
-/

namespace SubCountOverlay

/-! ## JavaScript numbers -/

/-- A JavaScript number as the variables of the program can hold it: `NaN`, an
infinity, or a finite double whose value is an integer. -/
inductive JSNumber where
  | nan
  | negInf
  | posInf
  | int (v : Int)
  deriving DecidableEq, Repr

/-- A JavaScript number in general: `NaN`, an infinity, or the finite double
`m * 2 ^ e`. -/
inductive JSDouble where
  | nan
  | negInf
  | posInf
  | fin (m : Int) (e : Int)
  deriving DecidableEq, Repr

/-- Position of the leading binary digit of `n`, by halving at most `fuel`
times. -/
def log2Fuel : Nat → Nat → Nat
  | 0, _ => 0
  | fuel + 1, n => if n < 2 then 0 else log2Fuel fuel (n / 2) + 1

/-- The greatest `k` with `2 ^ k ≤ n`, for `n > 0`. -/
def floorLog2 (n : Nat) : Nat := log2Fuel n n

/-- The power `2 ^ e` for `e ≥ 0`, and `1` for `e < 0`. -/
def pow2 (e : Int) : Nat := 2 ^ e.toNat

/-- The quotient `a / b`, `b > 0`, rounded to the nearest integer, a tie going
to the even one. -/
def roundHalfEven (a b : Int) : Int :=
  if 2 * (a % b) < b then a / b
  else if b < 2 * (a % b) then a / b + 1
  else if (a / b) % 2 = 0 then a / b
  else a / b + 1

/-- The greatest `E` with `2 ^ E ≤ n / d`, for `n, d > 0`. -/
def binade (n d : Nat) : Int :=
  if d * pow2 ((floorLog2 n : Int) - (floorLog2 d : Int))
      ≤ n * pow2 ((floorLog2 d : Int) - (floorLog2 n : Int)) then
    (floorLog2 n : Int) - (floorLog2 d : Int)
  else (floorLog2 n : Int) - (floorLog2 d : Int) - 1

/-- The rational `n / d`, `d > 0`, rounded to the nearest double, a tie going
to the even significand. This is the rounding of IEEE 754 binary64, applied by
every JavaScript arithmetic operation: 53 significant bits, least exponent
`-1074`, an infinity from `2 ^ 1024` on. -/
def roundToDouble (n : Int) (d : Nat) : JSDouble :=
  if n = 0 then .fin 0 0
  else
    let e := max (binade n.natAbs d - 52) (-1074)
    let m := roundHalfEven (n * pow2 (-e)) (d * pow2 e)
    if 971 < e ∨ (e = 971 ∧ m.natAbs = 2 ^ 53) then
      (if n < 0 then .negInf else .posInf)
    else .fin m e

/-- The integer `n` rounded to the nearest double. -/
def roundInt (n : Int) : JSNumber :=
  match roundToDouble n 1 with
  | .fin m e => .int (m * pow2 e / pow2 (-e))
  | .posInf => .posInf
  | .negInf => .negInf
  | .nan => .nan

/-- The operator `+`. -/
def jsAdd : JSNumber → JSNumber → JSNumber
  | .nan, _ => .nan
  | _, .nan => .nan
  | .posInf, .negInf => .nan
  | .negInf, .posInf => .nan
  | .posInf, _ => .posInf
  | _, .posInf => .posInf
  | .negInf, _ => .negInf
  | _, .negInf => .negInf
  | .int a, .int b => roundInt (a + b)

/-- The operator `*`. -/
def jsMul : JSNumber → JSNumber → JSNumber
  | .nan, _ => .nan
  | _, .nan => .nan
  | .int a, .int b => roundInt (a * b)
  | .int a, .posInf => if a = 0 then .nan else if 0 < a then .posInf else .negInf
  | .int a, .negInf => if a = 0 then .nan else if 0 < a then .negInf else .posInf
  | .posInf, .int b => if b = 0 then .nan else if 0 < b then .posInf else .negInf
  | .negInf, .int b => if b = 0 then .nan else if 0 < b then .negInf else .posInf
  | .posInf, .posInf => .posInf
  | .negInf, .negInf => .posInf
  | .posInf, .negInf => .negInf
  | .negInf, .posInf => .negInf

/-- The operator `/`. A zero divisor is taken as `+0`. -/
def jsDiv : JSNumber → JSNumber → JSDouble
  | .nan, _ => .nan
  | _, .nan => .nan
  | .int a, .int b =>
      if b = 0 then (if a = 0 then .nan else if 0 < a then .posInf else .negInf)
      else roundToDouble (a * b.sign) b.natAbs
  | .int _, .posInf => .fin 0 0
  | .int _, .negInf => .fin 0 0
  | .posInf, .int b => if 0 ≤ b then .posInf else .negInf
  | .negInf, .int b => if 0 ≤ b then .negInf else .posInf
  | .posInf, .posInf => .nan
  | .posInf, .negInf => .nan
  | .negInf, .posInf => .nan
  | .negInf, .negInf => .nan

/-- The function `Math.ceil`. -/
def mathCeil : JSDouble → JSNumber
  | .nan => .nan
  | .posInf => .posInf
  | .negInf => .negInf
  | .fin m e => .int (-((-(m * pow2 e)) / pow2 (-e)))

/-- The operator `>=`. -/
def jsGe : JSNumber → JSNumber → Bool
  | .nan, _ => false
  | _, .nan => false
  | _, .negInf => true
  | .posInf, _ => true
  | .negInf, _ => false
  | _, .posInf => false
  | .int a, .int b => decide (b ≤ a)

/-- The operator `<`. -/
def jsLt : JSNumber → JSNumber → Bool
  | .nan, _ => false
  | _, .nan => false
  | _, .negInf => false
  | .posInf, _ => false
  | .negInf, _ => true
  | _, .posInf => true
  | .int a, .int b => decide (a < b)

/-- The test `Number.isSafeInteger`: magnitude at most `2 ^ 53 - 1`. -/
def isSafeInteger (v : Int) : Bool :=
  decide (-9007199254740991 ≤ v) && decide (v ≤ 9007199254740991)

/-- The text `hay.includes(pat)` on lists of characters: `pat` occurs in `hay`
as a contiguous block. -/
def includesChars : List Char → List Char → Bool
  | [], pat => pat.isEmpty
  | c :: cs, pat => pat.isPrefixOf (c :: cs) || includesChars cs pat

/-- The method `String.prototype.includes`. -/
def includes (hay pat : String) : Bool := includesChars hay.data pat.data

/-! ## Configuration and process-wide variables (lines 23-35, 267) -/

/-- Line 33: `const increment = 10`. -/
def increment : Int := 10

/-- The mutable top-level variables of `server.js`. `oauth2Client` records
whether the variable holds a client object (`true`) or `null` (`false`). -/
structure ServerState where
  currentSubCount : JSNumber
  currentGoal : JSNumber
  previousGoal : JSNumber
  oauth2Client : Bool
  isAuthenticated : Bool
  connectedClients : Int
  deriving DecidableEq, Repr

/-- Initial values: lines 30-35 and 267. -/
def initialState : ServerState :=
  { currentSubCount := .int 0
    currentGoal := .int 810
    previousGoal := .int 800
    oauth2Client := false
    isAuthenticated := false
    connectedClients := 0 }

/-! ## Messages and effects -/

/-- The object sent with a `subscriber-update` event (lines 238-244, 277-283). -/
structure UpdateData where
  count : JSNumber
  goal : JSNumber
  previousGoal : JSNumber
  timestamp : String
  exact : Bool
  deriving DecidableEq, Repr

/-- Event name together with its payload, as passed to `emit`. -/
inductive Payload where
  | subscriberUpdate (data : UpdateData)
  | error (message : String)
  | clientCount (count : Int)
  deriving DecidableEq, Repr

/-- Externally visible actions of the server. -/
inductive Effect where
  /-- The request to the metrics API, `youtube.channels.list`. -/
  | channelsList
  /-- A call of `io.emit`: delivered to every connected client. -/
  | ioEmit (p : Payload)
  /-- A call of `socket.emit`: delivered to the one socket only. -/
  | socketEmit (socketId : Nat) (p : Payload)
  deriving DecidableEq, Repr

/-- An element of `response.data.items` as line 227 reads it. -/
inductive Item where
  /-- The element has no `statistics`: reading `subscriberCount` of it throws
  a `TypeError`. -/
  | noStatistics
  /-- The element has `statistics`; `subscriberCount` is the value of
  `parseInt(item.statistics.subscriberCount)`, `NaN` when the field is absent
  or not numeric. -/
  | statistics (subscriberCount : JSNumber)
  deriving DecidableEq, Repr

/-- How the awaited `youtube.channels.list` call settles. When it resolves,
`items` is `response.data.items`: `none` when the field is absent, otherwise
the array. When it rejects, `message` is `error.message`. -/
inductive FetchResult where
  | resolved (items : Option (List Item))
  | rejected (message : String)
  deriving DecidableEq, Repr

/-! ## The poll: `fetchSubscriberCount` (lines 213-264) -/

/-- Lines 229-235: the goal recalculation followed by
`currentSubCount = subCount`. -/
def updateGoal (s : ServerState) (subCount : JSNumber) : ServerState :=
  let s1 :=
    if jsGe subCount s.currentGoal then
      { s with
        previousGoal := s.currentGoal
        currentGoal :=
          jsMul (mathCeil (jsDiv (jsAdd subCount (.int 1)) (.int increment)))
            (.int increment) }
    else s
  { s1 with currentSubCount := subCount }

/-- Lines 238-244: the snapshot built from the variables. -/
def updateData (s : ServerState) (now : String) : UpdateData :=
  { count := s.currentSubCount
    goal := s.currentGoal
    previousGoal := s.previousGoal
    timestamp := now
    exact := true }

/-- Line 256: the test deciding that the credentials have expired. -/
def tokenExpired (message : String) : Bool :=
  includes message "invalid_grant" || includes message "invalid_token"

/-- Lines 252-263: the `catch` block, run with `error.message`. -/
def catchBlock (s : ServerState) (message : String) : ServerState × List Effect :=
  if tokenExpired message then
    ({ s with isAuthenticated := false },
      [Effect.ioEmit (Payload.error
        "Authentication expired. Please re-authenticate the server.")])
  else
    (s, [Effect.ioEmit (Payload.error "Failed to fetch subscriber count")])

/-- The message of the `TypeError` that Node raises on line 227 when the first
element has no `statistics`. Older versions of Node word it differently; no
wording contains `invalid_grant` or `invalid_token`. -/
def missingStatisticsMessage : String :=
  "Cannot read properties of undefined (reading \x27subscriberCount\x27)"

/-- Lines 226-263: what `fetchSubscriberCount` does once the awaited request
has settled, on the variables as they are at that moment. -/
def fetchSettled (s : ServerState) (r : FetchResult) (now : String) :
    ServerState × List Effect :=
  match r with
  | .resolved (some (.statistics subCount :: _)) =>
      let s1 := updateGoal s subCount
      (s1, [Effect.ioEmit (Payload.subscriberUpdate (updateData s1 now))])
  | .resolved (some (.noStatistics :: _)) => catchBlock s missingStatisticsMessage
  | .resolved _ => (s, [])
  | .rejected message => catchBlock s message

/-- Lines 214-224: what a call of `fetchSubscriberCount` does before it
suspends: the guard, then the request. -/
def fetchCall (s : ServerState) : ServerState × List Effect :=
  if !s.isAuthenticated || !s.oauth2Client then (s, [])
  else (s, [Effect.channelsList])

/-- The whole of `fetchSubscriberCount` (lines 213-264) when no other handler
runs while the request is in flight; `r` is how the request settles. -/
def fetchSubscriberCount (s : ServerState) (r : FetchResult) (now : String) :
    ServerState × List Effect :=
  if !s.isAuthenticated || !s.oauth2Client then (s, [])
  else
    let out := fetchSettled s r now
    (out.1, Effect.channelsList :: out.2)

/-! ## Socket handlers (lines 269-301) and timer (lines 304-308) -/

/-- Lines 269-288: the body of `io.on('connection', ...)`. -/
def onConnection (s : ServerState) (socketId : Nat) (now : String) :
    ServerState × List Effect :=
  let s1 := { s with connectedClients := s.connectedClients + 1 }
  (s1,
    [ Effect.ioEmit (Payload.clientCount s1.connectedClients),
      if s1.isAuthenticated then
        Effect.socketEmit socketId (Payload.subscriberUpdate (updateData s1 now))
      else
        Effect.socketEmit socketId (Payload.error
          "Server not authenticated. Admin needs to sign in at http://localhost:3000") ])

/-- Lines 290-294: the `disconnect` handler of a connected socket. -/
def onDisconnect (s : ServerState) : ServerState × List Effect :=
  let s1 := { s with connectedClients := s.connectedClients - 1 }
  (s1, [Effect.ioEmit (Payload.clientCount s1.connectedClients)])

/-- Lines 296-300 and 304-308: the `request-update` handler and the interval
callback have the same body; it starts a poll when authenticated. -/
def pollTrigger (s : ServerState) : ServerState × List Effect :=
  if s.isAuthenticated then fetchCall s else (s, [])

/-! ## HTTP routes that write the variables (lines 181-210) -/

/-- Lines 48-60, called by `GET /auth` (lines 181-184): `getAuthUrl` stores a
fresh client in `oauth2Client`. -/
def getAuthUrl (s : ServerState) : ServerState × List Effect :=
  ({ s with oauth2Client := true }, [])

/-- Lines 186-204: `GET /oauth2callback` once `getToken` has settled;
`tokenOk` tells whether it resolved. With no client, or a rejected exchange,
the `try` block throws before line 192. -/
def oauth2callback (s : ServerState) (tokenOk : Bool) : ServerState × List Effect :=
  if s.oauth2Client && tokenOk then
    fetchCall { s with isAuthenticated := true }
  else (s, [])

/-- Lines 206-210: `GET /logout`. -/
def logout (s : ServerState) : ServerState × List Effect :=
  ({ s with isAuthenticated := false, oauth2Client := false }, [])

/-! ## The server as a transition system -/

/-- Everything that can run a piece of `server.js` after start-up. -/
inductive Event where
  | connection (socketId : Nat) (now : String)
  | disconnect (socketId : Nat)
  | requestUpdate
  | intervalTick
  | fetchDone (r : FetchResult) (now : String)
  | authRoute
  | oauthCallback (tokenOk : Bool)
  | logoutRoute
  deriving DecidableEq, Repr

/-- One event handled to completion. -/
def step (s : ServerState) : Event → ServerState × List Effect
  | .connection socketId now => onConnection s socketId now
  | .disconnect _ => onDisconnect s
  | .requestUpdate => pollTrigger s
  | .intervalTick => pollTrigger s
  | .fetchDone r now => fetchSettled s r now
  | .authRoute => getAuthUrl s
  | .oauthCallback tokenOk => oauth2callback s tokenOk
  | .logoutRoute => logout s

/-- The variables after a sequence of events. -/
def run (s : ServerState) : List Event → ServerState
  | [] => s
  | e :: es => run (step s e).1 es

/-- The goal recalculation applied to a sequence of observed values. -/
def updateGoals (s : ServerState) : List JSNumber → ServerState
  | [] => s
  | v :: vs => updateGoals (updateGoal s v) vs

/-- The goals after each update of a sequence of observed values, starting
with the goal before the first one. -/
def goalTrace (s : ServerState) : List JSNumber → List JSNumber
  | [] => [s.currentGoal]
  | v :: vs => s.currentGoal :: goalTrace (updateGoal s v) vs

/-- The states after each update of a sequence of observed values, starting
with the state before the first one. -/
def stateTrace (s : ServerState) : List JSNumber → List ServerState
  | [] => [s]
  | v :: vs => s :: stateTrace (updateGoal s v) vs

/-! ## Observations on effect lists -/

/-- An emission, to all clients or to one socket, of a `client-count` event. -/
def Effect.carriesClientCount : Effect → Bool
  | .ioEmit (.clientCount _) => true
  | .socketEmit _ (.clientCount _) => true
  | _ => false

/-- An emission, to all clients or to one socket, of a `subscriber-update` or
an `error` event. -/
def Effect.carriesSessionInfo : Effect → Bool
  | .ioEmit (.subscriberUpdate _) => true
  | .ioEmit (.error _) => true
  | .socketEmit _ (.subscriberUpdate _) => true
  | .socketEmit _ (.error _) => true
  | _ => false

/-- The event is a client connecting. -/
def Event.isConnection : Event → Bool
  | .connection _ _ => true
  | _ => false

/-- The event is a connected client disconnecting. -/
def Event.isDisconnect : Event → Bool
  | .disconnect _ => true
  | _ => false

/-! ## Lemmas about the arithmetic of doubles -/

theorem log2Fuel_spec (fuel n : Nat) (hn : 0 < n) (hf : n ≤ fuel) :
    2 ^ log2Fuel fuel n ≤ n ∧ n < 2 ^ (log2Fuel fuel n + 1) := by
  induction fuel generalizing n with
  | zero => omega
  | succ fuel ih =>
    rw [log2Fuel]
    split
    · refine ⟨by simpa using hn, by simpa using ‹n < 2›⟩
    · have h2 : 0 < n / 2 := by omega
      have h3 : n / 2 ≤ fuel := by omega
      obtain ⟨h4, h5⟩ := ih (n / 2) h2 h3
      rw [pow_succ, pow_succ]
      rw [pow_succ] at h5
      constructor <;> omega

theorem floorLog2_spec (n : Nat) (hn : 0 < n) :
    2 ^ floorLog2 n ≤ n ∧ n < 2 ^ (floorLog2 n + 1) :=
  log2Fuel_spec n n hn (le_refl n)

theorem floorLog2_lt (n k : Nat) (hn : 0 < n) (h : n < 2 ^ k) : floorLog2 n < k := by
  have h1 := (floorLog2_spec n hn).1
  exact (Nat.pow_lt_pow_iff_right (by decide : 1 < 2)).mp (lt_of_le_of_lt h1 h)

theorem roundHalfEven_one (a : Int) : roundHalfEven a 1 = a := by
  simp [roundHalfEven]

/-- Rounding to the nearest integer moves the quotient by at most a half. -/
theorem roundHalfEven_bounds (a b : Int) (hb : 0 < b) :
    -b ≤ 2 * (b * roundHalfEven a b - a) ∧ 2 * (b * roundHalfEven a b - a) ≤ b := by
  have h1 := Int.emod_add_ediv a b
  have h2 := Int.emod_nonneg a (ne_of_gt hb)
  have h3 := Int.emod_lt_of_pos a hb
  unfold roundHalfEven
  split
  · constructor <;> nlinarith
  · split
    · constructor <;> nlinarith
    · split
      · constructor <;> nlinarith
      · constructor <;> nlinarith

theorem pow2_of_nonpos (e : Int) (h : e ≤ 0) : pow2 e = 1 := by
  unfold pow2
  rw [Int.toNat_of_nonpos h, pow_zero]

theorem pow2_natCast (k : Nat) : pow2 (k : Int) = 2 ^ k := by
  unfold pow2
  rw [Int.toNat_natCast]

theorem binade_one (n : Nat) (hn : 0 < n) : binade n 1 = (floorLog2 n : Int) := by
  have h0 : floorLog2 1 = 0 := by decide
  unfold binade
  rw [h0]
  simp only [Nat.cast_zero, sub_zero, zero_sub, one_mul]
  rw [pow2_natCast, pow2_of_nonpos _ (by omega), mul_one, if_pos (floorLog2_spec n hn).1]

theorem roundToDouble_int_small (n : Int) (hn : n ≠ 0) (h : n.natAbs < 2 ^ 53) :
    roundToDouble n 1 =
      .fin (n * ((2 ^ (52 - floorLog2 n.natAbs) : Nat) : Int))
        ((floorLog2 n.natAbs : Int) - 52) := by
  have hpos : 0 < n.natAbs := Int.natAbs_pos.mpr hn
  have hl : floorLog2 n.natAbs < 53 := floorLog2_lt _ _ hpos h
  unfold roundToDouble
  rw [if_neg hn, binade_one _ hpos]
  have he : max ((floorLog2 n.natAbs : Int) - 52) (-1074) = (floorLog2 n.natAbs : Int) - 52 := by
    omega
  simp only [he]
  have hk : -((floorLog2 n.natAbs : Int) - 52) = ((52 - floorLog2 n.natAbs : Nat) : Int) := by
    omega
  rw [hk, pow2_natCast, pow2_of_nonpos _ (by omega)]
  simp only [Nat.cast_one, mul_one, roundHalfEven_one]
  rw [if_neg (by omega)]

theorem roundInt_exact_small (n : Int) (hn : n ≠ 0) (h : n.natAbs < 2 ^ 53) :
    roundInt n = .int n := by
  have hpos : 0 < n.natAbs := Int.natAbs_pos.mpr hn
  have hl : floorLog2 n.natAbs < 53 := floorLog2_lt _ _ hpos h
  unfold roundInt
  rw [roundToDouble_int_small n hn h]
  have hk : -((floorLog2 n.natAbs : Int) - 52) = ((52 - floorLog2 n.natAbs : Nat) : Int) := by
    omega
  simp only
  rw [hk, pow2_natCast, pow2_of_nonpos _ (by omega)]
  simp only [Nat.cast_one, mul_one]
  rw [Int.mul_ediv_cancel]
  positivity

/-- Every integer of magnitude at most `2 ^ 53` is a double. -/
theorem roundInt_exact (n : Int) (h : n.natAbs ≤ 2 ^ 53) : roundInt n = .int n := by
  by_cases h0 : n = 0
  · subst h0; decide
  · rcases Nat.lt_or_ge n.natAbs (2 ^ 53) with h1 | h1
    · exact roundInt_exact_small n h0 h1
    · have h2 : n = 9007199254740992 ∨ n = -9007199254740992 := by omega
      rcases h2 with h2 | h2 <;> subst h2 <;> decide

theorem binade_bounds (n d : Nat) :
    (floorLog2 n : Int) - (floorLog2 d : Int) - 1 ≤ binade n d ∧
    binade n d ≤ (floorLog2 n : Int) - (floorLog2 d : Int) := by
  unfold binade
  split <;> constructor <;> omega

/-- A quotient by ten that was rounded to within half of an eighth or less has
the ceiling of the exact quotient. -/
theorem ediv_of_rounded (x m K : Int) (hK : 8 ≤ K)
    (h1 : -10 ≤ 2 * (10 * m - x * K)) (h2 : 2 * (10 * m - x * K) ≤ 10) :
    (-m) / K = (-x) / 10 := by
  have hq := Int.emod_add_ediv (-x) 10
  have hr0 := Int.emod_nonneg (-x) (by decide : (10 : Int) ≠ 0)
  have hr1 := Int.emod_lt_of_pos (-x) (by decide : (0 : Int) < 10)
  generalize (-x) / 10 = q at hq ⊢
  generalize (-x) % 10 = r at hq hr0 hr1
  have hx : x = -(10 * q + r) := by omega
  have hxK : x * K = -10 * (K * q) - r * K := by rw [hx]; ring
  have hrK1 : 0 ≤ r * K := mul_nonneg hr0 (by omega)
  have hrK2 : r * K ≤ 9 * K := mul_le_mul_of_nonneg_right (by omega) (by omega)
  have key : (-m) / K = q ∧ (-m) % K = -m - K * q := by
    rw [Int.ediv_emod_unique (by omega : 0 < K)]
    rw [hxK] at h1 h2
    generalize K * q = t at h1 h2 ⊢
    generalize r * K = u at h1 h2 hrK1 hrK2
    refine ⟨by omega, by omega, by omega⟩
  exact key.1

theorem mathCeil_div_small (x : Int) (hx : x ≠ 0) (h : x.natAbs < 2 ^ 53) :
    mathCeil (roundToDouble x 10) = .int (-((-x) / 10)) := by
  have hpos : 0 < x.natAbs := Int.natAbs_pos.mpr hx
  have hl : floorLog2 x.natAbs < 53 := floorLog2_lt _ _ hpos h
  have h10 : floorLog2 10 = 3 := by decide
  have hb := binade_bounds x.natAbs 10
  rw [h10] at hb
  unfold roundToDouble
  rw [if_neg hx]
  generalize binade x.natAbs 10 = E at hb
  have he : max (E - 52) (-1074) = E - 52 := by omega
  simp only [he]
  obtain ⟨k, hk⟩ : ∃ k : Nat, -(E - 52) = (k : Int) := ⟨(-(E - 52)).toNat, by omega⟩
  have hk3 : 3 ≤ k := by omega
  rw [hk, pow2_natCast, pow2_of_nonpos _ (by omega)]
  rw [if_neg (by omega)]
  show JSNumber.int (-(-(roundHalfEven (x * ((2 ^ k : Nat) : Int)) (((10 : Nat) : Int) * ((1 : Nat) : Int))
      * (pow2 (E - 52) : Int)) / (pow2 (-(E - 52)) : Int))) = _
  rw [hk, pow2_natCast, pow2_of_nonpos _ (by omega)]
  simp only [Nat.cast_one, mul_one, Nat.cast_ofNat]
  have hK : (8 : Int) ≤ ((2 ^ k : Nat) : Int) := by
    have : 2 ^ 3 ≤ 2 ^ k := Nat.pow_le_pow_right (by decide) hk3
    have h8 : (2 : Nat) ^ 3 = 8 := by decide
    omega
  have hb2 := roundHalfEven_bounds (x * ((2 ^ k : Nat) : Int)) 10 (by decide)
  rw [ediv_of_rounded x _ _ hK hb2.1 hb2.2]

/-- For a dividend of magnitude at most `2 ^ 53`, the ceiling of the rounded
quotient by ten is the ceiling of the exact quotient. -/
theorem mathCeil_div_exact (x : Int) (h : x.natAbs ≤ 2 ^ 53) :
    mathCeil (jsDiv (.int x) (.int increment)) = .int (-((-x) / 10)) := by
  have hd : jsDiv (.int x) (.int increment) = roundToDouble x 10 := by
    have hs : (10 : Int).sign = 1 := by decide
    simp [jsDiv, increment, hs]
  rw [hd]
  by_cases h0 : x = 0
  · subst h0; decide
  · rcases Nat.lt_or_ge x.natAbs (2 ^ 53) with h1 | h1
    · exact mathCeil_div_small x h0 h1
    · have h2 : x = 9007199254740992 ∨ x = -9007199254740992 := by omega
      rcases h2 with h2 | h2 <;> subst h2 <;> decide

/-- Line 232 on a safe integer: no operation rounds, and the new goal is the
exact `ceil((v + 1) / 10) * 10`. -/
theorem newGoal_safe (v : Int) (hv : isSafeInteger v = true) :
    jsMul (mathCeil (jsDiv (jsAdd (.int v) (.int 1)) (.int increment))) (.int increment)
      = .int (-((-(v + 1)) / 10) * 10) := by
  simp only [isSafeInteger, Bool.and_eq_true, decide_eq_true_eq] at hv
  have h1 : jsAdd (.int v) (.int 1) = .int (v + 1) := by
    show roundInt (v + 1) = .int (v + 1)
    exact roundInt_exact _ (by omega)
  rw [h1, mathCeil_div_exact _ (by omega)]
  show roundInt (-((-(v + 1)) / 10) * increment) = _
  unfold increment
  rcases le_or_lt (-((-(v + 1)) / 10) * 10) 9007199254740992 with h2 | h2
  · exact roundInt_exact _ (by omega)
  · have h3 : -((-(v + 1)) / 10) * 10 = 9007199254741000 := by omega
    rw [h3]
    decide

/-- The integer formula for the ceiling of a quotient is the ceiling of the
exact quotient. -/
theorem neg_ediv_neg_eq_ceil (a b : Int) (hb : 0 < b) :
    -((-a) / b) = ⌈(a : ℚ) / (b : ℚ)⌉ := by
  obtain ⟨n, rfl⟩ := Int.eq_ofNat_of_zero_le hb.le
  have h := Rat.floor_intCast_div_natCast (-a) n
  rw [← h, ← Int.ceil_neg]
  congr 1
  push_cast
  ring

theorem includesChars_iff (hay pat : List Char) :
    includesChars hay pat = true ↔ pat <:+: hay := by
  induction hay with
  | nil => simp [includesChars, List.isEmpty_iff]
  | cons c cs ih =>
    rw [includesChars, Bool.or_eq_true, ih, List.infix_cons_iff, List.isPrefixOf_iff_prefix]

theorem tokenExpired_iff (message : String) :
    tokenExpired message = true ↔
      "invalid_grant".data <:+: message.data ∨ "invalid_token".data <:+: message.data := by
  unfold tokenExpired includes
  rw [Bool.or_eq_true, includesChars_iff, includesChars_iff]

/-! ## Lemmas about the goal recalculation -/

theorem updateGoal_currentSubCount (s : ServerState) (v : JSNumber) :
    (updateGoal s v).currentSubCount = v := by
  unfold updateGoal
  split <;> rfl

theorem updateGoal_flags (s : ServerState) (v : JSNumber) :
    (updateGoal s v).isAuthenticated = s.isAuthenticated ∧
    (updateGoal s v).oauth2Client = s.oauth2Client ∧
    (updateGoal s v).connectedClients = s.connectedClients := by
  unfold updateGoal
  split <;> exact ⟨rfl, rfl, rfl⟩

theorem updateGoal_of_ge (s : ServerState) (v : JSNumber)
    (h : jsGe v s.currentGoal = true) :
    updateGoal s v =
      { s with
        currentSubCount := v
        previousGoal := s.currentGoal
        currentGoal :=
          jsMul (mathCeil (jsDiv (jsAdd v (.int 1)) (.int increment))) (.int increment) } := by
  unfold updateGoal
  rw [if_pos h]

theorem updateGoal_of_not_ge (s : ServerState) (v : JSNumber)
    (h : jsGe v s.currentGoal = false) :
    updateGoal s v = { s with currentSubCount := v } := by
  unfold updateGoal
  rw [if_neg (by simp [h])]

/-- The update with a safe integer that has reached an integer goal. -/
theorem updateGoal_safe_ge (s : ServerState) (g v : Int) (hs : s.currentGoal = .int g)
    (hv : isSafeInteger v = true) (h : g ≤ v) :
    updateGoal s (.int v) =
      { s with
        currentSubCount := .int v
        previousGoal := .int g
        currentGoal := .int (-((-(v + 1)) / 10) * 10) } := by
  rw [updateGoal_of_ge s _ (by rw [hs]; simpa [jsGe] using h), newGoal_safe v hv, hs]

/-- The update with an integer below an integer goal. -/
theorem updateGoal_int_lt (s : ServerState) (g v : Int) (hs : s.currentGoal = .int g)
    (h : v < g) :
    updateGoal s (.int v) = { s with currentSubCount := .int v } :=
  updateGoal_of_not_ge s _ (by rw [hs]; simpa [jsGe] using h)

/-- A reading that is not above an earlier one does not reach a goal that the
earlier one did not reach. -/
theorem jsGe_int_mono (g : JSNumber) (v v' : Int) (h : v' ≤ v)
    (hg : jsGe (.int v) g = false) : jsGe (.int v') g = false := by
  cases g with
  | nan => rfl
  | negInf => simp [jsGe] at hg
  | posInf => rfl
  | int b =>
    simp only [jsGe, decide_eq_false_iff_not, not_le] at hg ⊢
    omega

/-- With integer goals and safe readings, every state of a run of updates has
integer goals with `previousGoal < currentGoal`. -/
theorem stateTrace_order (s : ServerState) (p g : Int) (vs : List Int)
    (hp : s.previousGoal = .int p) (hg : s.currentGoal = .int g) (h : p < g)
    (hvs : ∀ v ∈ vs, isSafeInteger v = true) :
    ∀ t ∈ stateTrace s (vs.map JSNumber.int),
      ∃ p' g' : Int, t.previousGoal = .int p' ∧ t.currentGoal = .int g' ∧ p' < g' := by
  induction vs generalizing s p g with
  | nil =>
    intro t ht
    rw [List.map_nil, stateTrace, List.mem_singleton] at ht
    rw [ht]
    exact ⟨p, g, hp, hg, h⟩
  | cons v vs ih =>
    intro t ht
    rw [List.map_cons, stateTrace, List.mem_cons] at ht
    have hv := hvs v (List.mem_cons_self v vs)
    have hvs' : ∀ w ∈ vs, isSafeInteger w = true :=
      fun w hw => hvs w (List.mem_cons_of_mem v hw)
    rcases ht with ht | ht
    · rw [ht]
      exact ⟨p, g, hp, hg, h⟩
    · rcases le_or_lt g v with hgv | hgv
      · rw [updateGoal_safe_ge s g v hg hv hgv] at ht
        exact ih _ g (-((-(v + 1)) / 10) * 10) rfl rfl (by omega) hvs' t ht
      · rw [updateGoal_int_lt s g v hg hgv] at ht
        exact ih { s with currentSubCount := .int v } p g hp hg h hvs' t ht

/-- With an integer goal that is a multiple of ten and safe readings, the
goals of a run of updates are integers, multiples of ten, none below the goal
at the start, and in non-decreasing order. -/
theorem goalTrace_ints (s : ServerState) (g : Int) (vs : List Int)
    (hg : s.currentGoal = .int g) (hd : increment ∣ g)
    (hvs : ∀ v ∈ vs, isSafeInteger v = true) :
    ∃ gs : List Int,
      goalTrace s (vs.map JSNumber.int) = gs.map JSNumber.int ∧
      gs.length = vs.length + 1 ∧
      (∀ x ∈ gs, g ≤ x) ∧
      List.Pairwise (fun a b => a ≤ b) gs ∧
      (∀ x ∈ gs, increment ∣ x) ∧
      gs.getLast?.map JSNumber.int
        = some (updateGoals s (vs.map JSNumber.int)).currentGoal := by
  induction vs generalizing s g with
  | nil =>
    refine ⟨[g], ?_, rfl, ?_, List.pairwise_singleton _ _, ?_, ?_⟩
    · rw [List.map_nil, goalTrace, hg]; rfl
    · intro x hx; rw [List.mem_singleton] at hx; omega
    · intro x hx; rw [List.mem_singleton] at hx; rw [hx]; exact hd
    · rw [List.map_nil, updateGoals, hg]; rfl
  | cons v vs ih =>
    have hv := hvs v (List.mem_cons_self v vs)
    have hvs' : ∀ w ∈ vs, isSafeInteger w = true :=
      fun w hw => hvs w (List.mem_cons_of_mem v hw)
    have key : ∃ g' : Int, (updateGoal s (.int v)).currentGoal = .int g' ∧
        g ≤ g' ∧ increment ∣ g' := by
      rcases le_or_lt g v with hgv | hgv
      · rw [updateGoal_safe_ge s g v hg hv hgv]
        exact ⟨_, rfl, by omega, Dvd.intro_left _ rfl⟩
      · rw [updateGoal_int_lt s g v hg hgv]
        exact ⟨g, hg, le_refl g, hd⟩
    obtain ⟨g', hg', hle, hd'⟩ := key
    obtain ⟨gs, h1, h2, h3, h4, h5, h6⟩ := ih (updateGoal s (.int v)) g' hg' hd' hvs'
    refine ⟨g :: gs, ?_, ?_, ?_, ?_, ?_, ?_⟩
    · rw [List.map_cons, goalTrace, h1, hg]; rfl
    · rw [List.length_cons, h2, List.length_cons]
    · intro x hx
      rw [List.mem_cons] at hx
      rcases hx with hx | hx
      · omega
      · exact le_trans hle (h3 x hx)
    · rw [List.pairwise_cons]
      exact ⟨fun x hx => le_trans hle (h3 x hx), h4⟩
    · intro x hx
      rw [List.mem_cons] at hx
      rcases hx with hx | hx
      · rw [hx]; exact hd
      · exact h5 x hx
    · rw [List.map_cons, updateGoals, ← h6]
      cases gs with
      | nil => simp at h2
      | cons x xs => simp [List.getLast?_cons_cons]

theorem fetchSettled_statistics (s : ServerState) (v : JSNumber) (rest : List Item)
    (now : String) :
    fetchSettled s (.resolved (some (.statistics v :: rest))) now =
      (updateGoal s v,
        [Effect.ioEmit (Payload.subscriberUpdate (updateData (updateGoal s v) now))]) := rfl

theorem updateGoals_mem_stateTrace (s : ServerState) (vs : List JSNumber) :
    updateGoals s vs ∈ stateTrace s vs := by
  induction vs generalizing s with
  | nil => simp [updateGoals, stateTrace]
  | cons v vs ih =>
    rw [updateGoals, stateTrace]
    exact List.mem_cons_of_mem _ (ih (updateGoal s v))

/-! ## Lemmas about the transition system -/

theorem catchBlock_expired (s : ServerState) (message : String)
    (h : tokenExpired message = true) :
    catchBlock s message =
      ({ s with isAuthenticated := false },
        [Effect.ioEmit (Payload.error
          "Authentication expired. Please re-authenticate the server.")]) := by
  simp only [catchBlock, h, if_true]

theorem catchBlock_other (s : ServerState) (message : String)
    (h : tokenExpired message = false) :
    catchBlock s message =
      (s, [Effect.ioEmit (Payload.error "Failed to fetch subscriber count")]) := by
  simp [catchBlock, h]

theorem catchBlock_flags (s : ServerState) (message : String) :
    ((catchBlock s message).1.isAuthenticated = true → s.isAuthenticated = true) ∧
    (catchBlock s message).1.oauth2Client = s.oauth2Client ∧
    (catchBlock s message).1.connectedClients = s.connectedClients := by
  unfold catchBlock
  split
  · exact ⟨fun h1 => by simp at h1, rfl, rfl⟩
  · exact ⟨id, rfl, rfl⟩

theorem fetchSettled_flags (s : ServerState) (r : FetchResult) (now : String) :
    ((fetchSettled s r now).1.isAuthenticated = true → s.isAuthenticated = true) ∧
    (fetchSettled s r now).1.oauth2Client = s.oauth2Client ∧
    (fetchSettled s r now).1.connectedClients = s.connectedClients := by
  unfold fetchSettled
  split
  · have h := updateGoal_flags s ‹JSNumber›
    exact ⟨fun h1 => h.1 ▸ h1, h.2.1, h.2.2⟩
  · exact catchBlock_flags s _
  · exact ⟨id, rfl, rfl⟩
  · exact catchBlock_flags s _

theorem fetchCall_state (s : ServerState) : (fetchCall s).1 = s := by
  unfold fetchCall
  split <;> rfl

theorem pollTrigger_state (s : ServerState) : (pollTrigger s).1 = s := by
  unfold pollTrigger
  split
  · exact fetchCall_state s
  · rfl

/-- Whenever the server is authenticated the client variable is set. -/
theorem step_keeps_client (s : ServerState) (e : Event)
    (h : s.isAuthenticated = true → s.oauth2Client = true) :
    (step s e).1.isAuthenticated = true → (step s e).1.oauth2Client = true := by
  cases e with
  | connection socketId now => exact h
  | disconnect socketId => exact h
  | requestUpdate => rw [step, pollTrigger_state]; exact h
  | intervalTick => rw [step, pollTrigger_state]; exact h
  | fetchDone r now =>
    intro h1
    have hf := fetchSettled_flags s r now
    rw [step, hf.2.1]
    exact h (hf.1 h1)
  | authRoute => intro _; rfl
  | oauthCallback tokenOk =>
    rw [step, oauth2callback]
    split
    · rename_i hc
      rw [fetchCall_state]
      intro _
      rw [Bool.and_eq_true] at hc
      exact hc.1
    · exact h
  | logoutRoute => intro h1; simp [step, logout] at h1

theorem run_keeps_client (s : ServerState) (es : List Event)
    (h : s.isAuthenticated = true → s.oauth2Client = true) :
    (run s es).isAuthenticated = true → (run s es).oauth2Client = true := by
  induction es generalizing s with
  | nil => exact h
  | cons e es ih => exact ih (step s e).1 (step_keeps_client s e h)

theorem fetchSubscriberCount_of_auth (s : ServerState) (r : FetchResult) (now : String)
    (ha : s.isAuthenticated = true) (hc : s.oauth2Client = true) :
    fetchSubscriberCount s r now =
      ((fetchSettled s r now).1, Effect.channelsList :: (fetchSettled s r now).2) := by
  simp [fetchSubscriberCount, ha, hc]

theorem fetchSubscriberCount_of_unauth (s : ServerState) (r : FetchResult) (now : String)
    (ha : s.isAuthenticated = false) :
    fetchSubscriberCount s r now = (s, []) := by
  simp [fetchSubscriberCount, ha]

theorem pollTrigger_of_unauth (s : ServerState) (ha : s.isAuthenticated = false) :
    pollTrigger s = (s, []) := by
  simp [pollTrigger, ha]

theorem step_keeps_unauth (s : ServerState) (e : Event)
    (ha : s.isAuthenticated = false) (he : e ≠ Event.oauthCallback true) :
    (step s e).1.isAuthenticated = false := by
  cases e with
  | connection socketId now => exact ha
  | disconnect socketId => exact ha
  | requestUpdate => rw [step, pollTrigger_state]; exact ha
  | intervalTick => rw [step, pollTrigger_state]; exact ha
  | fetchDone r now =>
    have hf := (fetchSettled_flags s r now).1
    cases hb : (fetchSettled s r now).1.isAuthenticated with
    | false => rw [step]; exact hb
    | true => rw [hf hb] at ha; cases ha
  | authRoute => exact ha
  | oauthCallback tokenOk =>
    cases tokenOk with
    | true => exact absurd rfl he
    | false => simp [step, oauth2callback, ha]
  | logoutRoute => rfl

theorem run_keeps_unauth (s : ServerState) (es : List Event)
    (ha : s.isAuthenticated = false) (hes : ∀ e ∈ es, e ≠ Event.oauthCallback true) :
    (run s es).isAuthenticated = false := by
  induction es generalizing s with
  | nil => exact ha
  | cons e es ih =>
    exact ih (step s e).1
      (step_keeps_unauth s e ha (hes e (List.mem_cons_self e es)))
      (fun e' he' => hes e' (List.mem_cons_of_mem e he'))

theorem run_append (s : ServerState) (es fs : List Event) :
    run s (es ++ fs) = run (run s es) fs := by
  induction es generalizing s with
  | nil => rfl
  | cons e es ih => exact ih (step s e).1

theorem run_connections (s : ServerState) (cs : List Event)
    (hcs : ∀ e ∈ cs, e.isConnection = true) :
    (run s cs).connectedClients = s.connectedClients + (cs.length : Int) := by
  induction cs generalizing s with
  | nil => simp [run]
  | cons e cs ih =>
    have he := hcs e (List.mem_cons_self e cs)
    cases e with
    | connection socketId now =>
      rw [run, ih _ (fun e' he' => hcs e' (List.mem_cons_of_mem _ he'))]
      simp only [step, onConnection, List.length_cons]
      push_cast
      ring
    | _ => simp [Event.isConnection] at he

theorem run_disconnects (s : ServerState) (ds : List Event)
    (hds : ∀ e ∈ ds, e.isDisconnect = true) :
    (run s ds).connectedClients = s.connectedClients - (ds.length : Int) := by
  induction ds generalizing s with
  | nil => simp [run]
  | cons e ds ih =>
    have he := hds e (List.mem_cons_self e ds)
    cases e with
    | disconnect socketId =>
      rw [run, ih _ (fun e' he' => hds e' (List.mem_cons_of_mem _ he'))]
      simp only [step, onDisconnect, List.length_cons]
      push_cast
      ring
    | _ => simp [Event.isDisconnect] at he

/-! ## Goal Tracker -/

/-- C1 fails as stated: 9007199254741000 is a double and has reached the goal
810, yet the update stores the goal 9007199254741000, because the sum on line
232 rounds back to the reading, and not
`ceil((value + 1) / STEP) * STEP = 9007199254741010`. -/
theorem C1_large_value_counterexample :
    roundInt 9007199254741000 = .int 9007199254741000 ∧
    jsGe (.int 9007199254741000) initialState.currentGoal = true ∧
    (updateGoal initialState (.int 9007199254741000)).currentGoal
      = .int 9007199254741000 ∧
    ⌈((9007199254741000 + 1 : Int) : ℚ) / ((increment : Int) : ℚ)⌉ * increment
      = 9007199254741010 ∧
    (updateGoal initialState (.int 9007199254741000)).currentGoal
      ≠ .int (⌈((9007199254741000 + 1 : Int) : ℚ) / ((increment : Int) : ℚ)⌉ * increment) := by
  have h : ⌈((9007199254741000 + 1 : Int) : ℚ) / ((increment : Int) : ℚ)⌉ * increment
      = 9007199254741010 := by
    rw [← neg_ediv_neg_eq_ceil _ _ (by decide)]
    decide
  refine ⟨by decide, by decide, by decide, h, ?_⟩
  rw [h]
  decide

/-- C1, amended: the Goal Tracker step with STEP = 10, for every integer goal
and previousGoal and every observed integer value of magnitude at most
`2 ^ 53 - 1`. The state left by a successful fetch that observed `value` is
`updateGoal s value`; if `value >= goal` the new goal is
`ceil((value + 1) / STEP) * STEP` and the new previousGoal is the old goal,
otherwise goal and previousGoal are unchanged. From (goal 810, previousGoal
800), value 815 gives (820, 810) and value 805 gives (810, 800). -/
theorem C1_goal_tracker_step (s : ServerState) (goal previousGoal value : Int)
    (rest : List Item) (now : String) (hsafe : isSafeInteger value = true) :
    increment = 10 ∧
    (fetchSettled s (.resolved (some (.statistics (.int value) :: rest))) now).1
      = updateGoal s (.int value) ∧
    (if value ≥ goal then
      (updateGoal { s with currentGoal := .int goal, previousGoal := .int previousGoal }
          (.int value)).currentGoal
          = .int (⌈((value + 1 : Int) : ℚ) / ((increment : Int) : ℚ)⌉ * increment) ∧
        (updateGoal { s with currentGoal := .int goal, previousGoal := .int previousGoal }
          (.int value)).previousGoal = .int goal
    else
      (updateGoal { s with currentGoal := .int goal, previousGoal := .int previousGoal }
          (.int value)).currentGoal = .int goal ∧
        (updateGoal { s with currentGoal := .int goal, previousGoal := .int previousGoal }
          (.int value)).previousGoal = .int previousGoal) ∧
    ((updateGoal { s with currentGoal := .int 810, previousGoal := .int 800 }
        (.int 815)).currentGoal = .int 820 ∧
      (updateGoal { s with currentGoal := .int 810, previousGoal := .int 800 }
        (.int 815)).previousGoal = .int 810) ∧
    ((updateGoal { s with currentGoal := .int 810, previousGoal := .int 800 }
        (.int 805)).currentGoal = .int 810 ∧
      (updateGoal { s with currentGoal := .int 810, previousGoal := .int 800 }
        (.int 805)).previousGoal = .int 800) := by
  refine ⟨rfl, rfl, ?_, ⟨?_, ?_⟩, ⟨?_, ?_⟩⟩
  · split
    · rename_i h
      rw [updateGoal_safe_ge _ goal value rfl hsafe h,
        ← neg_ediv_neg_eq_ceil _ _ (by decide)]
      exact ⟨rfl, rfl⟩
    · rename_i h
      rw [updateGoal_int_lt _ goal value rfl (by simpa using h)]
      exact ⟨rfl, rfl⟩
  · rw [updateGoal_safe_ge _ 810 815 rfl (by decide) (by decide)]
    show JSNumber.int (-((-(815 + 1)) / 10) * 10) = .int 820
    decide
  · rw [updateGoal_safe_ge _ 810 815 rfl (by decide) (by decide)]
  · rw [updateGoal_int_lt _ 810 805 rfl (by decide)]
  · rw [updateGoal_int_lt _ 810 805 rfl (by decide)]

theorem C1_goal_tracker_step_witness :
    isSafeInteger 815 = true ∧
    (fetchSettled initialState (.resolved (some [.statistics (.int 815)])) "t").1
      = updateGoal initialState (.int 815) ∧
    (updateGoal { initialState with currentGoal := .int 810, previousGoal := .int 800 }
      (.int 815)).currentGoal = .int 820 :=
  ⟨by decide,
    (C1_goal_tracker_step initialState 810 800 815 [] "t" (by decide)).2.1,
    (C1_goal_tracker_step initialState 810 800 815 [] "t" (by decide)).2.2.2.1.1⟩

/-- C2 fails as stated: after a successful fetch that observed the double
9007199254741000, which has reached the goal 810, the stored goal equals the
stored current value instead of lying strictly above it. -/
theorem C2_large_value_counterexample :
    roundInt 9007199254741000 = .int 9007199254741000 ∧
    jsGe (.int 9007199254741000) initialState.currentGoal = true ∧
    (fetchSettled initialState
      (.resolved (some [.statistics (.int 9007199254741000)])) "t").1.currentSubCount
      = .int 9007199254741000 ∧
    (fetchSettled initialState
      (.resolved (some [.statistics (.int 9007199254741000)])) "t").1.currentGoal
      = .int 9007199254741000 ∧
    jsLt
      (fetchSettled initialState
        (.resolved (some [.statistics (.int 9007199254741000)])) "t").1.currentSubCount
      (fetchSettled initialState
        (.resolved (some [.statistics (.int 9007199254741000)])) "t").1.currentGoal
      = false := by
  decide

/-- C2, amended: for every session state whose goal is a number and every
observed integer value of magnitude at most `2 ^ 53 - 1`, after the
successful-fetch update (goal recalculation, then `currentSubCount = value`)
the stored goal is strictly greater than the stored current value; and when
the goal advanced (`value >= ` old goal) the new goal is an integer, the least
multiple of STEP strictly greater than `value`, so that `new goal - value`
lies between 1 and STEP inclusive. -/
theorem C2_goal_above_value (s : ServerState) (value : Int) (rest : List Item)
    (now : String) (hgoal : s.currentGoal ≠ .nan)
    (hsafe : isSafeInteger value = true) :
    (fetchSettled s (.resolved (some (.statistics (.int value) :: rest))) now).1.currentSubCount
      = .int value ∧
    jsLt
      (fetchSettled s (.resolved (some (.statistics (.int value) :: rest))) now).1.currentSubCount
      (fetchSettled s (.resolved (some (.statistics (.int value) :: rest))) now).1.currentGoal
      = true ∧
    (jsGe (.int value) s.currentGoal = true →
      ∃ newGoal : Int,
        (fetchSettled s (.resolved (some (.statistics (.int value) :: rest))) now).1.currentGoal
          = .int newGoal ∧
        increment ∣ newGoal ∧
        value < newGoal ∧
        (∀ m : Int, increment ∣ m → value < m → newGoal ≤ m) ∧
        1 ≤ newGoal - value ∧
        newGoal - value ≤ increment) := by
  rw [fetchSettled_statistics]
  cases hge : jsGe (.int value) s.currentGoal with
  | true =>
    rw [updateGoal_of_ge s _ hge, newGoal_safe value hsafe]
    refine ⟨rfl, ?_, fun _ => ⟨_, rfl, Dvd.intro_left _ rfl, by omega, ?_, by omega, ?_⟩⟩
    · show decide (value < -((-(value + 1)) / 10) * 10) = true
      rw [decide_eq_true_eq]
      omega
    · intro m hm hlt
      unfold increment at hm
      omega
    · unfold increment
      omega
  | false =>
    rw [updateGoal_of_not_ge s _ hge]
    refine ⟨rfl, ?_, fun h => by cases h⟩
    show jsLt (.int value) s.currentGoal = true
    cases hg : s.currentGoal with
    | nan => exact absurd hg hgoal
    | negInf => rw [hg] at hge; simp [jsGe] at hge
    | posInf => rfl
    | int g =>
      rw [hg] at hge
      simp only [jsGe, decide_eq_false_iff_not, not_le] at hge
      show decide (value < g) = true
      rw [decide_eq_true_eq]
      exact hge

theorem C2_goal_above_value_witness :
    initialState.currentGoal ≠ .nan ∧
    isSafeInteger 815 = true ∧
    jsGe (.int 815) initialState.currentGoal = true ∧
    ∃ newGoal : Int,
      (fetchSettled initialState
        (.resolved (some [.statistics (.int 815)])) "t").1.currentGoal = .int newGoal ∧
      increment ∣ newGoal ∧
      815 < newGoal ∧
      (∀ m : Int, increment ∣ m → 815 < m → newGoal ≤ m) ∧
      1 ≤ newGoal - 815 ∧
      newGoal - 815 ≤ increment :=
  ⟨by decide, by decide, by decide,
    (C2_goal_above_value initialState 815 [] "t" (by decide) (by decide)).2.2 (by decide)⟩

/-- C3 fails as stated: from the initial state, two readings of the double
9007199254741000 leave `previousGoal` equal to `currentGoal`. -/
theorem C3_large_value_counterexample :
    roundInt 9007199254741000 = .int 9007199254741000 ∧
    updateGoals initialState [.int 9007199254741000, .int 9007199254741000]
      ∈ stateTrace initialState [.int 9007199254741000, .int 9007199254741000] ∧
    (updateGoals initialState
      [.int 9007199254741000, .int 9007199254741000]).previousGoal
      = .int 9007199254741000 ∧
    (updateGoals initialState
      [.int 9007199254741000, .int 9007199254741000]).currentGoal
      = .int 9007199254741000 ∧
    jsLt
      (updateGoals initialState
        [.int 9007199254741000, .int 9007199254741000]).previousGoal
      (updateGoals initialState
        [.int 9007199254741000, .int 9007199254741000]).currentGoal
      = false := by
  decide

/-- C3, amended: `previousGoal < goal` is an invariant of the session state
for observed integer values of magnitude at most `2 ^ 53 - 1`. It holds in the
initial state (previousGoal 800, goal 810) and, for every finite sequence of
such values applied through the goal update, after every update in the
sequence, both goals being integers. -/
theorem C3_previousGoal_lt_goal (vs : List Int)
    (hsafe : ∀ v ∈ vs, isSafeInteger v = true) :
    initialState.previousGoal = .int 800 ∧ initialState.currentGoal = .int 810 ∧
    jsLt initialState.previousGoal initialState.currentGoal = true ∧
    (∀ t ∈ stateTrace initialState (vs.map JSNumber.int),
      jsLt t.previousGoal t.currentGoal = true ∧
      ∃ p g : Int, t.previousGoal = .int p ∧ t.currentGoal = .int g ∧ p < g) ∧
    updateGoals initialState (vs.map JSNumber.int)
      ∈ stateTrace initialState (vs.map JSNumber.int) := by
  refine ⟨rfl, rfl, by decide, ?_, updateGoals_mem_stateTrace _ _⟩
  intro t ht
  obtain ⟨p, g, hp, hg, hlt⟩ :=
    stateTrace_order initialState 800 810 vs rfl rfl (by decide) hsafe t ht
  refine ⟨?_, p, g, hp, hg, hlt⟩
  rw [hp, hg]
  show decide (p < g) = true
  rw [decide_eq_true_eq]
  exact hlt

theorem C3_previousGoal_lt_goal_witness :
    (∀ v ∈ ([805, 815, 3] : List Int), isSafeInteger v = true) ∧
    updateGoals initialState [.int 805, .int 815]
      ∈ stateTrace initialState (([805, 815, 3] : List Int).map JSNumber.int) ∧
    jsLt (updateGoals initialState [.int 805, .int 815]).previousGoal
      (updateGoals initialState [.int 805, .int 815]).currentGoal = true :=
  ⟨by decide, by decide,
    ((C3_previousGoal_lt_goal [805, 815, 3] (by decide)).2.2.2.1 _ (by decide)).1⟩

/-- C4 fails as stated: from the initial state the one-element, hence sorted,
sequence holding the double `2 ^ 54 = 18014398509481984` gives the goal
18014398509481992, which is not a multiple of STEP. -/
theorem C4_large_value_counterexample :
    roundInt 18014398509481984 = .int 18014398509481984 ∧
    List.Pairwise (fun a b => a ≤ b) ([18014398509481984] : List Int) ∧
    goalTrace initialState [.int 18014398509481984]
      = [.int 810, .int 18014398509481992] ∧
    ¬ increment ∣ (18014398509481992 : Int) := by
  refine ⟨by decide, by decide, by decide, ?_⟩
  unfold increment
  omega

/-- C4, amended: starting from the initial state (goal 810, previousGoal 800,
STEP 10), for every sequence of observed integer values `v1 <= v2 <= ...` of
magnitude at most `2 ^ 53 - 1` fed one by one through the goal update, the
goals are integers, their sequence is non-decreasing and every goal in it is a
multiple of STEP. The sequence has one entry per update after the initial goal
and ends with the goal of the final state. -/
theorem C4_goals_monotone_multiples (vs : List Int)
    (hsafe : ∀ v ∈ vs, isSafeInteger v = true)
    (_hvs : List.Pairwise (fun a b => a ≤ b) vs) :
    ∃ gs : List Int,
      goalTrace initialState (vs.map JSNumber.int) = gs.map JSNumber.int ∧
      gs.length = vs.length + 1 ∧
      List.Pairwise (fun a b => a ≤ b) gs ∧
      (∀ g ∈ gs, increment ∣ g) ∧
      gs.getLast?.map JSNumber.int
        = some (updateGoals initialState (vs.map JSNumber.int)).currentGoal := by
  obtain ⟨gs, h1, h2, _, h4, h5, h6⟩ :=
    goalTrace_ints initialState 810 vs rfl (by decide) hsafe
  exact ⟨gs, h1, h2, h4, h5, h6⟩

theorem C4_goals_monotone_multiples_witness :
    (∀ v ∈ ([805, 815, 815, 900] : List Int), isSafeInteger v = true) ∧
    List.Pairwise (fun a b => a ≤ b) ([805, 815, 815, 900] : List Int) ∧
    goalTrace initialState (([805, 815, 815, 900] : List Int).map JSNumber.int)
      = ([810, 810, 820, 820, 910] : List Int).map JSNumber.int ∧
    ∃ gs : List Int,
      goalTrace initialState (([805, 815, 815, 900] : List Int).map JSNumber.int)
        = gs.map JSNumber.int ∧
      gs.length = ([805, 815, 815, 900] : List Int).length + 1 ∧
      List.Pairwise (fun a b => a ≤ b) gs ∧
      (∀ g ∈ gs, increment ∣ g) ∧
      gs.getLast?.map JSNumber.int
        = some (updateGoals initialState
            (([805, 815, 815, 900] : List Int).map JSNumber.int)).currentGoal :=
  ⟨by decide, by decide, by decide,
    C4_goals_monotone_multiples [805, 815, 815, 900] (by decide) (by decide)⟩

/-- C10 fails as stated: from the initial state the double 9007199254741000
read twice overwrites `previousGoal` on the second reading, 810 becoming
9007199254741000. -/
theorem C10_large_value_counterexample :
    roundInt 9007199254741000 = .int 9007199254741000 ∧
    (updateGoal initialState (.int 9007199254741000)).previousGoal = .int 810 ∧
    (updateGoal (updateGoal initialState (.int 9007199254741000))
      (.int 9007199254741000)).previousGoal = .int 9007199254741000 ∧
    (updateGoal (updateGoal initialState (.int 9007199254741000))
      (.int 9007199254741000)).previousGoal
      ≠ (updateGoal initialState (.int 9007199254741000)).previousGoal := by
  decide

/-- C10, amended: the goal update is idempotent in an observed integer value
of magnitude at most `2 ^ 53 - 1`. After an update with such a value `v`, a
further update with any integer `v' <= v` leaves goal and previousGoal
unchanged; in particular applying the update with `v` twice gives the same
state as applying it once. -/
theorem C10_update_idempotent (s : ServerState) (v v' : Int)
    (hsafe : isSafeInteger v = true) (h : v' ≤ v) :
    (updateGoal (updateGoal s (.int v)) (.int v')).currentGoal
      = (updateGoal s (.int v)).currentGoal ∧
    (updateGoal (updateGoal s (.int v)) (.int v')).previousGoal
      = (updateGoal s (.int v)).previousGoal ∧
    updateGoal (updateGoal s (.int v)) (.int v) = updateGoal s (.int v) := by
  have key : ∀ w : Int, w ≤ v →
      updateGoal (updateGoal s (.int v)) (.int w)
        = { updateGoal s (.int v) with currentSubCount := .int w } := by
    intro w hw
    apply updateGoal_of_not_ge
    cases hge : jsGe (.int v) s.currentGoal with
    | true =>
      rw [updateGoal_of_ge s _ hge, newGoal_safe v hsafe]
      show decide (-((-(v + 1)) / 10) * 10 ≤ w) = false
      rw [decide_eq_false_iff_not]
      omega
    | false =>
      rw [updateGoal_of_not_ge s _ hge]
      exact jsGe_int_mono s.currentGoal v w hw hge
  refine ⟨by rw [key v' h], by rw [key v' h], ?_⟩
  rw [key v (le_refl v)]
  have hc := updateGoal_currentSubCount s (.int v)
  cases hs : updateGoal s (.int v)
  rw [hs] at hc
  simp only at hc
  subst hc
  rfl

theorem C10_update_idempotent_witness :
    isSafeInteger 815 = true ∧ (805 : Int) ≤ 815 ∧
    (updateGoal (updateGoal initialState (.int 815)) (.int 805)).currentGoal
      = (updateGoal initialState (.int 815)).currentGoal ∧
    (updateGoal (updateGoal initialState (.int 815)) (.int 805)).previousGoal
      = (updateGoal initialState (.int 815)).previousGoal :=
  ⟨by decide, by decide,
    (C10_update_idempotent initialState 815 805 (by decide) (by decide)).1,
    (C10_update_idempotent initialState 815 805 (by decide) (by decide)).2.1⟩

/-! ## Poll outcomes -/

/-- C5 fails as stated: in the authenticated state reached by signing in, a
poll whose request succeeds with an empty item list makes the request, leaves
the variables as they were and broadcasts no `subscriber-update`. -/
theorem C5_empty_items_no_broadcast :
    (run initialState [.authRoute, .oauthCallback true]).isAuthenticated = true ∧
    fetchSubscriberCount (run initialState [.authRoute, .oauthCallback true])
        (.resolved (some [])) "t"
      = (run initialState [.authRoute, .oauthCallback true], [Effect.channelsList]) ∧
    ¬ ∃ d, Effect.ioEmit (Payload.subscriberUpdate d) ∈
        (fetchSubscriberCount (run initialState [.authRoute, .oauthCallback true])
          (.resolved (some [])) "t").2 := by
  have h : fetchSubscriberCount (run initialState [.authRoute, .oauthCallback true])
      (.resolved (some [])) "t"
        = (run initialState [.authRoute, .oauthCallback true], [Effect.channelsList]) := by
    decide
  refine ⟨by decide, h, ?_⟩
  rw [h]
  rintro ⟨d, hd⟩
  simp at hd

/-- C5, amended: for every poll run in a reachable authenticated state whose
request succeeds with a non-empty item list whose first item carries
statistics, the variables are updated through the goal recalculation with the
number parsed from that item, and after the request exactly one
`subscriber-update` is broadcast to all clients, whose count, goal and
previousGoal are those of the updated state. The same update and broadcast
happen whatever the variables are when the request settles. When the request
succeeds with an empty or absent item list, the variables are unchanged and
nothing is broadcast. When the first item carries no statistics, the read on
line 227 throws into the `catch` block: the variables are unchanged and one
`error` notice is broadcast. -/
theorem C5_poll_success (es : List Event) (subCount : JSNumber) (rest : List Item)
    (now : String) (hauth : (run initialState es).isAuthenticated = true) :
    fetchSubscriberCount (run initialState es)
        (.resolved (some (.statistics subCount :: rest))) now
      = (updateGoal (run initialState es) subCount,
          [Effect.channelsList,
            Effect.ioEmit (Payload.subscriberUpdate
              { count := (updateGoal (run initialState es) subCount).currentSubCount
                goal := (updateGoal (run initialState es) subCount).currentGoal
                previousGoal := (updateGoal (run initialState es) subCount).previousGoal
                timestamp := now
                exact := true })]) ∧
    (∀ s : ServerState,
      fetchSettled s (.resolved (some (.statistics subCount :: rest))) now
        = (updateGoal s subCount,
            [Effect.ioEmit (Payload.subscriberUpdate
              { count := (updateGoal s subCount).currentSubCount
                goal := (updateGoal s subCount).currentGoal
                previousGoal := (updateGoal s subCount).previousGoal
                timestamp := now
                exact := true })])) ∧
    fetchSubscriberCount (run initialState es) (.resolved (some [])) now
      = (run initialState es, [Effect.channelsList]) ∧
    fetchSubscriberCount (run initialState es) (.resolved none) now
      = (run initialState es, [Effect.channelsList]) ∧
    fetchSubscriberCount (run initialState es)
        (.resolved (some (.noStatistics :: rest))) now
      = (run initialState es,
          [Effect.channelsList,
            Effect.ioEmit (Payload.error "Failed to fetch subscriber count")]) := by
  have hc := run_keeps_client initialState es (fun h => by cases h) hauth
  refine ⟨?_, fun s => rfl, ?_, ?_, ?_⟩
  · rw [fetchSubscriberCount_of_auth _ _ _ hauth hc]
    rfl
  · rw [fetchSubscriberCount_of_auth _ _ _ hauth hc]
    rfl
  · rw [fetchSubscriberCount_of_auth _ _ _ hauth hc]
    rfl
  · rw [fetchSubscriberCount_of_auth _ _ _ hauth hc]
    show ((catchBlock _ missingStatisticsMessage).1,
      Effect.channelsList :: (catchBlock _ missingStatisticsMessage).2) = _
    rw [catchBlock_other _ _ (by decide)]

theorem C5_poll_success_witness :
    (run initialState [.authRoute, .oauthCallback true]).isAuthenticated = true ∧
    fetchSubscriberCount (run initialState [.authRoute, .oauthCallback true])
        (.resolved (some [.statistics (.int 815), .noStatistics])) "t"
      = (updateGoal (run initialState [.authRoute, .oauthCallback true]) (.int 815),
          [Effect.channelsList,
            Effect.ioEmit (Payload.subscriberUpdate
              { count :=
                  (updateGoal (run initialState [.authRoute, .oauthCallback true])
                    (.int 815)).currentSubCount
                goal :=
                  (updateGoal (run initialState [.authRoute, .oauthCallback true])
                    (.int 815)).currentGoal
                previousGoal :=
                  (updateGoal (run initialState [.authRoute, .oauthCallback true])
                    (.int 815)).previousGoal
                timestamp := "t"
                exact := true })]) :=
  ⟨by decide,
    (C5_poll_success [.authRoute, .oauthCallback true] (.int 815) [.noStatistics] "t"
      (by decide)).1⟩

/-- C6: if the request of a poll fails with a message containing
`invalid_grant` or `invalid_token`, the server becomes unauthenticated and
exactly one `error` notice is broadcast to all clients, the other variables
being unchanged. In every state reached afterwards by events none of which is a
successful sign-in, the interval callback makes no request and emits nothing,
and so does a call of `fetchSubscriberCount` itself. -/
theorem C6_credential_expired (s : ServerState) (message now : String)
    (h : "invalid_grant".data <:+: message.data ∨
      "invalid_token".data <:+: message.data) :
    (fetchSettled s (.rejected message) now).1 = { s with isAuthenticated := false } ∧
    (fetchSettled s (.rejected message) now).2 =
      [Effect.ioEmit (Payload.error
        "Authentication expired. Please re-authenticate the server.")] ∧
    (s.isAuthenticated = true → s.oauth2Client = true →
      fetchSubscriberCount s (.rejected message) now =
        ({ s with isAuthenticated := false },
          [Effect.channelsList,
            Effect.ioEmit (Payload.error
              "Authentication expired. Please re-authenticate the server.")])) ∧
    (∀ es : List Event, (∀ e ∈ es, e ≠ Event.oauthCallback true) →
      (run (fetchSettled s (.rejected message) now).1 es).isAuthenticated = false ∧
      step (run (fetchSettled s (.rejected message) now).1 es) .intervalTick
        = (run (fetchSettled s (.rejected message) now).1 es, []) ∧
      ∀ (r : FetchResult) (now' : String),
        fetchSubscriberCount (run (fetchSettled s (.rejected message) now).1 es) r now'
          = (run (fetchSettled s (.rejected message) now).1 es, [])) := by
  have hx : fetchSettled s (.rejected message) now = _ :=
    catchBlock_expired s message ((tokenExpired_iff message).mpr h)
  refine ⟨by rw [hx], by rw [hx], ?_, ?_⟩
  · intro ha hc
    rw [fetchSubscriberCount_of_auth _ _ _ ha hc, hx]
  · intro es hes
    have hu := run_keeps_unauth (fetchSettled s (.rejected message) now).1 es
      (by rw [hx]) hes
    exact ⟨hu, pollTrigger_of_unauth _ hu,
      fun r now' => fetchSubscriberCount_of_unauth _ r now' hu⟩

theorem C6_credential_expired_witness :
    ("invalid_grant".data <:+: "Error: invalid_grant".data ∨
      "invalid_token".data <:+: "Error: invalid_grant".data) ∧
    (∀ e ∈ [Event.intervalTick, Event.connection 1 "t", Event.oauthCallback false],
      e ≠ Event.oauthCallback true) ∧
    step (run (fetchSettled (run initialState [.authRoute, .oauthCallback true])
        (.rejected "Error: invalid_grant") "t").1
        [Event.intervalTick, Event.connection 1 "t", Event.oauthCallback false])
        .intervalTick
      = (run (fetchSettled (run initialState [.authRoute, .oauthCallback true])
        (.rejected "Error: invalid_grant") "t").1
        [Event.intervalTick, Event.connection 1 "t", Event.oauthCallback false], []) :=
  ⟨(tokenExpired_iff _).mp (by decide), by decide,
    ((C6_credential_expired (run initialState [.authRoute, .oauthCallback true])
      "Error: invalid_grant" "t" ((tokenExpired_iff _).mp (by decide))).2.2.2
        [Event.intervalTick, Event.connection 1 "t", Event.oauthCallback false]
        (by decide)).2.1⟩

/-- C7: if the request of a poll fails with a message containing neither
`invalid_grant` nor `invalid_token`, exactly one `error` notice is broadcast to
all clients and every variable keeps its value, the authentication flag
included. On a failure of either class `currentSubCount`, `currentGoal` and
`previousGoal` keep their values and exactly one `error` notice is broadcast. -/
theorem C7_transient_failure (s : ServerState) (message now : String)
    (h : ¬ ("invalid_grant".data <:+: message.data ∨
      "invalid_token".data <:+: message.data)) :
    fetchSettled s (.rejected message) now =
      (s, [Effect.ioEmit (Payload.error "Failed to fetch subscriber count")]) ∧
    (s.isAuthenticated = true → s.oauth2Client = true →
      fetchSubscriberCount s (.rejected message) now =
        (s, [Effect.channelsList,
          Effect.ioEmit (Payload.error "Failed to fetch subscriber count")])) ∧
    (∀ m : String,
      (fetchSettled s (.rejected m) now).1.currentSubCount = s.currentSubCount ∧
      (fetchSettled s (.rejected m) now).1.currentGoal = s.currentGoal ∧
      (fetchSettled s (.rejected m) now).1.previousGoal = s.previousGoal ∧
      ∃ text, (fetchSettled s (.rejected m) now).2 = [Effect.ioEmit (Payload.error text)]) := by
  have hf : tokenExpired message = false := by
    cases ht : tokenExpired message with
    | false => rfl
    | true => exact absurd ((tokenExpired_iff message).mp ht) h
  have hx : fetchSettled s (.rejected message) now = _ := catchBlock_other s message hf
  refine ⟨hx, ?_, ?_⟩
  · intro ha hc
    rw [fetchSubscriberCount_of_auth _ _ _ ha hc, hx]
  · intro m
    show (catchBlock s m).1.currentSubCount = _ ∧ (catchBlock s m).1.currentGoal = _ ∧
      (catchBlock s m).1.previousGoal = _ ∧
      ∃ text, (catchBlock s m).2 = [Effect.ioEmit (Payload.error text)]
    cases hm : tokenExpired m with
    | false =>
      rw [catchBlock_other s m hm]
      exact ⟨rfl, rfl, rfl, _, rfl⟩
    | true =>
      rw [catchBlock_expired s m hm]
      exact ⟨rfl, rfl, rfl, _, rfl⟩

theorem C7_transient_failure_witness :
    ¬ ("invalid_grant".data <:+: "socket hang up".data ∨
      "invalid_token".data <:+: "socket hang up".data) ∧
    fetchSettled (run initialState [.authRoute, .oauthCallback true])
        (.rejected "socket hang up") "t" =
      (run initialState [.authRoute, .oauthCallback true],
        [Effect.ioEmit (Payload.error "Failed to fetch subscriber count")]) :=
  ⟨fun h => absurd ((tokenExpired_iff _).mpr h) (by decide),
    (C7_transient_failure (run initialState [.authRoute, .oauthCallback true])
      "socket hang up" "t"
      (fun h => absurd ((tokenExpired_iff _).mpr h) (by decide))).1⟩

/-! ## Connections -/

/-- C8: connection bookkeeping. From variables with `connectedClients = 0`,
`N` connects followed by `M <= N` disconnects leave `connectedClients` equal to
`N - M`, and the counter is non-negative after every initial part of that
sequence. In any state, a connect raises the counter by one and a disconnect
lowers it by one, and each of them emits exactly one `client-count` message,
to all clients, carrying the counter as it is right after the event. -/
theorem C8_connection_bookkeeping (s : ServerState) (cs ds : List Event)
    (h0 : s.connectedClients = 0)
    (hcs : ∀ e ∈ cs, e.isConnection = true)
    (hds : ∀ e ∈ ds, e.isDisconnect = true)
    (hle : ds.length ≤ cs.length) :
    (run s (cs ++ ds)).connectedClients = (cs.length : Int) - (ds.length : Int) ∧
    (∀ k : Nat, 0 ≤ (run s ((cs ++ ds).take k)).connectedClients) ∧
    (∀ (t : ServerState) (socketId : Nat) (now : String),
      (step t (.connection socketId now)).1.connectedClients = t.connectedClients + 1 ∧
      (step t (.connection socketId now)).2.filter Effect.carriesClientCount =
        [Effect.ioEmit (Payload.clientCount
          (step t (.connection socketId now)).1.connectedClients)]) ∧
    (∀ (t : ServerState) (socketId : Nat),
      (step t (.disconnect socketId)).1.connectedClients = t.connectedClients - 1 ∧
      (step t (.disconnect socketId)).2.filter Effect.carriesClientCount =
        [Effect.ioEmit (Payload.clientCount
          (step t (.disconnect socketId)).1.connectedClients)]) := by
  refine ⟨?_, ?_, ?_, ?_⟩
  · rw [run_append, run_disconnects _ ds hds, run_connections s cs hcs, h0]
    ring
  · intro k
    rw [List.take_append_eq_append_take, run_append,
      run_disconnects _ _ (fun e he => hds e (List.mem_of_mem_take he)),
      run_connections s _ (fun e he => hcs e (List.mem_of_mem_take he)), h0,
      List.length_take, List.length_take]
    omega
  · intro t socketId now
    refine ⟨rfl, ?_⟩
    simp only [step, onConnection]
    cases t.isAuthenticated <;> rfl
  · intro t socketId
    exact ⟨rfl, rfl⟩

theorem C8_connection_bookkeeping_witness :
    initialState.connectedClients = 0 ∧
    (run initialState
      ([.connection 1 "a", .connection 2 "b", .connection 3 "c"] ++
        [.disconnect 2, .disconnect 1])).connectedClients = 1 :=
  ⟨rfl,
    (C8_connection_bookkeeping initialState
      [.connection 1 "a", .connection 2 "b", .connection 3 "c"]
      [.disconnect 2, .disconnect 1] rfl (by decide) (by decide) (by decide)).1⟩

/-- C9: when a client connects, whatever the variables are, exactly one
message carrying session information is emitted, and it goes to the new socket
only: a `subscriber-update` whose count, goal and previousGoal are the current
variables when the server is authenticated, an `error` notice when it is not.
The only other emission is the `client-count` broadcast. The connect leaves
`currentSubCount`, `currentGoal`, `previousGoal` and the authentication flag
as they were. -/
theorem C9_onConnect_delivery (s : ServerState) (socketId : Nat) (now : String) :
    (if s.isAuthenticated = true then
      (onConnection s socketId now).2.filter Effect.carriesSessionInfo =
        [Effect.socketEmit socketId (Payload.subscriberUpdate
          { count := s.currentSubCount
            goal := s.currentGoal
            previousGoal := s.previousGoal
            timestamp := now
            exact := true })]
    else
      (onConnection s socketId now).2.filter Effect.carriesSessionInfo =
        [Effect.socketEmit socketId (Payload.error
          "Server not authenticated. Admin needs to sign in at http://localhost:3000")]) ∧
    (onConnection s socketId now).2 =
      Effect.ioEmit (Payload.clientCount (s.connectedClients + 1)) ::
        (onConnection s socketId now).2.filter Effect.carriesSessionInfo ∧
    (onConnection s socketId now).1 =
      { s with connectedClients := s.connectedClients + 1 } ∧
    step s (.connection socketId now) = onConnection s socketId now := by
  refine ⟨?_, ?_, rfl, rfl⟩
  · cases h : s.isAuthenticated <;> simp [onConnection, h, Effect.carriesSessionInfo, updateData]
  · cases h : s.isAuthenticated <;> simp [onConnection, h, Effect.carriesSessionInfo]

end SubCountOverlay
